import Mathlib

/-!
Shallow embedding of the python-mgearman client library (src/gearman/) and
proofs about the behaviour its specification claims.

Conventions of the embedding:
* Python mutable objects become Lean structures; a method that mutates state
  returns the updated structure.
* A method that can raise returns `Except`; where the Python exception
  propagates out of a method after some attributes were already mutated, the
  error value carries the mutated state so callers can inspect it (mirroring
  the library's own "callers may inspect last state" discipline).
* Exception *messages* are abstracted away except where a message string is
  the only way to tell two `ConnectionError` sites apart.
* `time.time()` results are modelled as rationals.
-/

/-- Job-request states (job.py lines 8-12).  In the source these are the five
string constants `UNKNOWN`, `PENDING`, `CREATED`, `FAILED`, `COMPLETE`. -/
inductive JobState
  | unknown
  | pending
  | created
  | failed
  | complete
  deriving DecidableEq, Repr

/-- The string constant each `JobState` stands for (job.py lines 8-12). -/
def JobState.str : JobState → String
  | .unknown  => "UNKNOWN"
  | .pending  => "PENDING"
  | .created  => "CREATED"
  | .failed   => "FAILED"
  | .complete => "COMPLETE"

/-- Python's `x in s` for two strings is substring containment.  This matters
because job.py line 96 reads `self.state in (JOB_CREATED)` where
`(JOB_CREATED)` is a parenthesised string, not a tuple. -/
def pyInStr (x s : String) : Bool :=
  decide (x.data <:+: s.data)

/-- `GearmanJobRequest.complete` (job.py lines 93-101), as written: the
background arm is the Python substring test `self.state in (JOB_CREATED)`
and the foreground arm is tuple membership in `(JOB_FAILED, JOB_COMPLETE)`. -/
def GearmanJobRequest.completeProp (background : Bool) (state : JobState) : Bool :=
  let background_complete := background && pyInStr state.str "CREATED"
  let foreground_complete := !background &&
    (state.str == "FAILED" || state.str == "COMPLETE")
  background_complete || foreground_complete

/-- Gearman binary command types used by the handlers under src/.
Modelled from the spec: `protocol.py` is not under src/; only the names of its
constants appear in the source.  The spec's external-interface section lists
these command types verbatim. -/
inductive CmdType
  | SUBMIT_JOB
  | SUBMIT_JOB_HIGH
  | SUBMIT_JOB_LOW
  | SUBMIT_JOB_BG
  | SUBMIT_JOB_HIGH_BG
  | SUBMIT_JOB_LOW_BG
  | JOB_CREATED
  | GRAB_JOB_UNIQ
  | NO_JOB
  | JOB_ASSIGN
  | JOB_ASSIGN_UNIQ
  | PRE_SLEEP
  | NOOP
  | RESET_ABILITIES
  | CAN_DO
  | SET_CLIENT_ID
  | WORK_DATA
  | WORK_WARNING
  | WORK_STATUS
  | WORK_COMPLETE
  | WORK_FAIL
  | WORK_EXCEPTION
  | GET_STATUS
  | STATUS_RES
  | ECHO_REQ
  | ECHO_RES
  | SERVER_ERROR
  | TEXT_COMMAND
  deriving DecidableEq, Repr

/-- A command as enqueued by `GearmanConnection.send_command` (connection.py
lines 207-210): the command type and its keyword arguments in the order the
call site names them. -/
abbrev Cmd : Type := CmdType × List (String × String)

/-- Job priorities (job.py lines 4-6): `None`, `'LOW'`, `'HIGH'`. -/
inductive Priority
  | nonePriority
  | low
  | high
  deriving DecidableEq, Repr

/-- `GearmanJob` (job.py lines 14-39).  `handle` is `None` until assigned;
`has_handler` models whether the weak `handler` back-reference is bound. -/
structure GearmanJob where
  has_handler : Bool
  handle : Option String
  task : String
  unique : String
  data : String
  deriving DecidableEq, Repr

/-- `GearmanJobRequest` (job.py lines 42-101), restricted to the attributes
the claims touch (the update queues, `result`, `exception` and `status` are
not modelled). -/
structure GearmanJobRequest where
  job : GearmanJob
  priority : Priority
  background : Bool
  connect_attempts : Nat
  max_connect_attempts : Nat
  state : JobState
  timed_out : Bool
  deriving DecidableEq, Repr

/-- The exception kinds raised by the code paths the claims cover
(errors.py is not under src/; these are the exception class names the
source raises).  Messages are abstracted except for `connectionError`,
where the source's distinct message strings identify the raising site.
`nameError` and `attributeError` are Python's own runtime errors, raised
when a name or attribute is read but was never bound. -/
inductive GearmanError
  | invalidClientState
  | exceededConnectionAttempts
  | serverUnavailable
  | connectionError (message : String)
  | protocolError
  | valueError
  | nameError (name : String)
  | attributeError (name : String)
  deriving DecidableEq, Repr

/-- `protocol.get_background_cmd_type` as used by clienthandler.py line 27.
Modelled from the spec: protocol.py is not under src/; the spec says the
client chooses among the six combinations
`{SUBMIT_JOB, SUBMIT_JOB_BG} x {none, high, low}`. -/
def get_background_cmd_type (background : Bool) (priority : Priority) : CmdType :=
  match background, priority with
  | false, .nonePriority => .SUBMIT_JOB
  | false, .high         => .SUBMIT_JOB_HIGH
  | false, .low          => .SUBMIT_JOB_LOW
  | true,  .nonePriority => .SUBMIT_JOB_BG
  | true,  .high         => .SUBMIT_JOB_HIGH_BG
  | true,  .low          => .SUBMIT_JOB_LOW_BG

/-- `GearmanClientCommandHandler` per-connection state (clienthandler.py
lines 15-21): the FIFO `request_queue` and the handle-keyed
`request_trace` map (a `WeakValueDictionary`, modelled as an association
list; weakness is not modelled). -/
structure GearmanClientCommandHandler where
  request_queue : List GearmanJobRequest
  request_trace : List (String × GearmanJobRequest)
  deriving DecidableEq, Repr

/-- Python dict assignment `d[k] = v`: replace the binding when the key is
present, otherwise add it. -/
def dictInsert (d : List (String × GearmanJobRequest)) (k : String)
    (v : GearmanJobRequest) : List (String × GearmanJobRequest) :=
  if d.any (fun p => p.1 == k) then
    d.map (fun p => if p.1 == k then (k, v) else p)
  else
    d ++ [(k, v)]

/-- `GearmanClientCommandHandler._assert_request_state` (clienthandler.py
lines 52-56): raise `InvalidClientState` unless the request is in the
expected state. -/
def _assert_request_state (request : GearmanJobRequest) (expected : JobState) :
    Except GearmanError Unit :=
  if request.state ≠ expected then
    Except.error .invalidClientState
  else
    Except.ok ()

/-- `GearmanClientCommandHandler.send_job_request` (clienthandler.py lines
23-37): assert state `UNKNOWN`, emit the submit command chosen from
`(background, priority)`, move the request to `PENDING`, and append it at
the back of `request_queue`.  Returns the updated handler, the updated
request, and the commands handed to the connection. -/
def GearmanClientCommandHandler.send_job_request
    (h : GearmanClientCommandHandler) (request : GearmanJobRequest) :
    Except GearmanError
      (GearmanClientCommandHandler × GearmanJobRequest × List Cmd) :=
  match _assert_request_state request .unknown with
  | Except.error e => Except.error e
  | Except.ok _ =>
      let cmd_type := get_background_cmd_type request.background request.priority
      let cmd : Cmd := (cmd_type, [("task", request.job.task),
                                   ("unique", request.job.unique),
                                   ("data", request.job.data)])
      let request := { request with state := .pending }
      Except.ok ({ h with request_queue := h.request_queue ++ [request] },
                 request, [cmd])

/-- `GearmanClientCommandHandler.recv_job_created` (clienthandler.py lines
59-72): raise `InvalidClientState` on an empty `request_queue`; otherwise
pop the head (the pop happens before the state assertion, so the error
state for a non-`PENDING` head has the head already removed), assert it is
`PENDING`, assign the handle, move it to `CREATED` and bind it into
`request_trace`.  Errors carry the handler state at the raise. -/
def GearmanClientCommandHandler.recv_job_created
    (h : GearmanClientCommandHandler) (job_handle : String) :
    Except (GearmanError × GearmanClientCommandHandler)
      (GearmanClientCommandHandler × Bool) :=
  match h.request_queue with
  | [] => Except.error (.invalidClientState, h)
  | request :: rest =>
      let popped := { h with request_queue := rest }
      if request.state ≠ .pending then
        Except.error (.invalidClientState, popped)
      else
        let request := { request with
          job := { request.job with handle := some job_handle },
          state := .created }
        Except.ok ({ popped with
          request_trace := dictInsert popped.request_trace job_handle request },
          true)

/-- `GearmanClientCommandHandler.on_io_error` (clienthandler.py lines 45-50):
set every request in `request_queue` and every request bound in
`request_trace` back to `UNKNOWN`. -/
def GearmanClientCommandHandler.on_io_error
    (h : GearmanClientCommandHandler) : GearmanClientCommandHandler :=
  { request_queue :=
      h.request_queue.map (fun r => { r with state := .unknown }),
    request_trace :=
      h.request_trace.map (fun p => (p.1, { p.2 with state := .unknown })) }

/-- `GearmanClient.send_job_request` (client.py lines 239-251): raise
`ExceededConnectionAttempts` when the request's retry budget is spent;
otherwise bind the handler `_create_handler` found (the `found` argument:
`none` models `_create_handler` raising `ServerUnavailable` before any
mutation), increment `connect_attempts`, clear `timed_out`, and forward the
request to the handler's own `send_job_request`.  Errors carry the request
as it stands at the raise. -/
def GearmanClient.send_job_request (request : GearmanJobRequest)
    (found : Option GearmanClientCommandHandler) :
    Except (GearmanError × GearmanJobRequest)
      (GearmanClientCommandHandler × GearmanJobRequest × List Cmd) :=
  if request.max_connect_attempts ≤ request.connect_attempts then
    Except.error (.exceededConnectionAttempts, request)
  else
    match found with
    | none => Except.error (.serverUnavailable, request)
    | some handler_state =>
        let request := { request with
          job := { request.job with has_handler := true },
          connect_attempts := request.connect_attempts + 1,
          timed_out := false }
        match handler_state.send_job_request request with
        | Except.error e => Except.error (e, request)
        | Except.ok out => Except.ok out

/-- `GearmanConnection` state (connection.py lines 61-86), generic over the
handler type paired with the connection.  `sock` is `none` when no socket is
bound; a bound socket is identified by a number (its file descriptor). -/
structure GearmanConnection (H : Type) where
  server_host : String
  server_port : Nat
  connected : Bool
  sock : Option Nat
  write_only : Bool
  allowed_connect_time : ℚ
  _incoming_buffer : List Char
  _outgoing_buffer : String
  _incoming_commands : List Cmd
  _outgoing_commands : List Cmd
  handler : H

/-- `GearmanConnection.connect_cooldown_seconds` (connection.py line 59). -/
def connect_cooldown_seconds : ℚ := 1

/-- `GearmanConnection._reset_connection` (connection.py lines 72-86): mark
disconnected, drop the socket, clear `write_only`, zero
`allowed_connect_time`, and clear all four buffers/queues. -/
def _reset_connection {H : Type} (c : GearmanConnection H) : GearmanConnection H :=
  { c with connected := false, sock := none, write_only := false,
           allowed_connect_time := 0,
           _incoming_buffer := [], _outgoing_buffer := "",
           _incoming_commands := [], _outgoing_commands := [] }

/-- `GearmanConnection.throw_exception` (connection.py lines 278-287): mark
disconnected (without resetting) and raise `ConnectionError`; the error
carries the connection state so callers may inspect it. -/
def GearmanConnection.throw_exception {H : Type} (c : GearmanConnection H)
    (message : String) : GearmanError × GearmanConnection H :=
  (.connectionError message, { c with connected := false })

/-- `GearmanConnection.connect` (connection.py lines 109-124) together with
`_create_client_socket` (lines 126-144).  `current_time` models
`time.time()`; `socket_ok` tells whether the socket creation succeeds and
`new_sock` which descriptor it yields; `set_state` is the paired handler's
`set_state`.  Note the source sets `allowed_connect_time` to
`current_time + connect_cooldown_seconds` at line 118 and then calls
`_reset_connection` at line 120, which zeroes it again. -/
def GearmanConnection.connect {H : Type} (c : GearmanConnection H)
    (current_time : ℚ) (socket_ok : Bool) (new_sock : Nat)
    (set_state : H → H) :
    Except (GearmanError × GearmanConnection H) (GearmanConnection H) :=
  if c.connected then
    Except.error (c.throw_exception "connection already established")
  else if current_time < c.allowed_connect_time then
    Except.error (c.throw_exception "attempted to connect too often")
  else
    let c := { c with
      allowed_connect_time := current_time + connect_cooldown_seconds }
    let c := _reset_connection c
    if c.sock.isSome then
      Except.error (c.throw_exception "socket already bound")
    else if socket_ok then
      let c := { c with sock := some new_sock }
      let c := { c with handler := set_state c.handler }
      Except.ok { c with connected := true }
    else
      Except.error (c.throw_exception "socket error")

/-- `GearmanConnection.close` (connection.py lines 264-273): close the socket
(its only state effect is subsumed by the reset), run the handler's `close`,
then `_reset_connection`. -/
def GearmanConnection.close {H : Type} (c : GearmanConnection H)
    (handler_close : H → H) : GearmanConnection H :=
  _reset_connection { c with handler := handler_close c.handler }

/-- A connection paired with a client command handler, as a `GearmanClient`
builds them. -/
abbrev ClientConnection := GearmanConnection GearmanClientCommandHandler

/-- `GearmanConnectionManager.handle_error` (connectionmanager.py lines
214-216) on a client connection: `conn.on_io_error()` (which forwards to the
handler's `on_io_error`, connection.py lines 275-276) and then
`conn.close()`.  The client handler's `close` is the base class's no-op
(commandhandler.py lines 76-77). -/
def handle_error (c : ClientConnection) : ClientConnection :=
  GearmanConnection.close { c with handler := c.handler.on_io_error } id

/-- `GearmanWorkerCommandHandler` per-connection state (workerhandler.py
lines 14-20).  `__init__` binds the attribute `_grabbing`; the attribute
`grabbing` (no underscore) that `recv_noop`, `recv_no_job`, `recv_error`,
`recv_job_assign_uniq` and `close` use is *never initialised* — it is
created dynamically by the first assignment, so it is modelled as an
`Option Bool` where `none` means "attribute not yet bound" (reading it
raises `AttributeError`). -/
structure GearmanWorkerCommandHandler where
  _grabbing : Bool
  grabbing : Option Bool
  _waiting : Bool
  _abilities : List String
  _client_id : Option String
  deriving DecidableEq, Repr

/-- `GearmanWorkerCommandHandler.__init__` (workerhandler.py lines 14-20). -/
def GearmanWorkerCommandHandler.init : GearmanWorkerCommandHandler :=
  { _grabbing := false, grabbing := none, _waiting := false,
    _abilities := [], _client_id := none }

/-- `GearmanWorkerCommandHandler.recv_noop` (workerhandler.py lines 91-109):
on a write-only connection do nothing; otherwise if
`connection.manager.reserve()` succeeds (`reserved`), assign
`self.grabbing = True` and send `GRAB_JOB_UNIQ`; else set
`self._waiting = True`.  Returns the handler, the commands sent, and the
method's return value. -/
def GearmanWorkerCommandHandler.recv_noop (h : GearmanWorkerCommandHandler)
    (write_only : Bool) (reserved : Bool) :
    GearmanWorkerCommandHandler × List Cmd × Bool :=
  if write_only then
    (h, [], true)
  else if reserved then
    ({ h with grabbing := some true }, [(.GRAB_JOB_UNIQ, [])], true)
  else
    ({ h with _waiting := true }, [], true)

/-- `GearmanWorkerCommandHandler.recv_error` (workerhandler.py lines
123-129): read `self.grabbing` (raising `AttributeError` when that
attribute was never assigned); when true, clear it and release the
manager's reservation (the returned `Nat` counts `release()` calls); then
send `PRE_SLEEP`. -/
def GearmanWorkerCommandHandler.recv_error (h : GearmanWorkerCommandHandler) :
    Except GearmanError (GearmanWorkerCommandHandler × List Cmd × Nat × Bool) :=
  match h.grabbing with
  | none => Except.error (.attributeError "grabbing")
  | some g =>
      if g then
        Except.ok ({ h with grabbing := some false }, [(.PRE_SLEEP, [])], 1, true)
      else
        Except.ok (h, [(.PRE_SLEEP, [])], 0, true)

/-- The module-level names notification.py binds (its `import` statements,
its `from`-import, and its two class statements).  The module `errno`,
whose attribute `EAGAIN` line 78 reads, is not among them. -/
def notificationModuleGlobals : List String :=
  ["os", "fcntl", "weakref", "logging", "ConnectionError",
   "_NotificationHandler", "_NotificationConnection"]

/-- Outcome of the non-blocking `os.write` on the self-pipe. -/
inductive PipeWriteOutcome
  | ok (bytes_written : Nat)
  | oserror (errno_value : Nat)
  deriving DecidableEq, Repr

/-- `errno.EAGAIN` on Linux. -/
def EAGAIN : Nat := 11

/-- `_NotificationConnection.send_command` (notification.py lines 74-79):
`os.write` the byte; on `os.error` run
`if os_exception.errno != errno.EAGAIN: self.throw_exception(...)`.
Evaluating that guard reads the global name `errno`; since notification.py
never imports `errno`, Python raises `NameError` there no matter which
errno the write failed with. -/
def _NotificationConnection.send_command (write_result : PipeWriteOutcome) :
    Except GearmanError Unit :=
  match write_result with
  | .ok _ => Except.ok ()
  | .oserror e =>
      if notificationModuleGlobals.contains "errno" then
        if e ≠ EAGAIN then
          Except.error (.connectionError "os error")
        else
          Except.ok ()
      else
        Except.error (.nameError "errno")

/-- The two per-connection flags `GearmanConnectionManager.poll` reads when
computing its loop guards (connectionmanager.py lines 166-168 and
193-195). -/
structure PollConnection where
  internal : Bool
  connected : Bool
  deriving DecidableEq, Repr

/-- The `pollable` guard as computed before the first loop iteration
(connectionmanager.py line 166):
`compat.any(not c.internal and c.connected for c in connections)`. -/
def pollable_initial (connections : List PollConnection) : Bool :=
  connections.any (fun c => !c.internal && c.connected)

/-- The `pollable` guard as recomputed after each iteration
(connectionmanager.py line 193):
`compat.any(not c.internal for c in connections)` — the `c.connected`
conjunct present at line 166 is absent here. -/
def pollable_recomputed (connections : List PollConnection) : Bool :=
  connections.any (fun c => !c.internal)

/-- `GearmanStatusRow`: one parsed row of an admin `status` response
(adminhandler.py lines 103-108). -/
structure GearmanStatusRow where
  task : String
  queued : Int
  running : Int
  workers : Int
  deriving DecidableEq, Repr

/-- An entry of the admin handler's `_recv_responses` queue; the claims only
exercise `status` responses (the tuple of accumulated rows pushed at the
terminating `'.'` line). -/
inductive AdminResponse
  | statusRows (rows : List GearmanStatusRow)
  deriving DecidableEq, Repr

/-- `GearmanAdminCommandHandler` state, restricted to the parts
`recv_server_status` touches (adminhandler.py lines 25-31). -/
structure GearmanAdminCommandHandler where
  _recv_responses : List AdminResponse
  _status_response : List GearmanStatusRow
  deriving DecidableEq, Repr

/-- Python's `s.split(sep)` for a single-character separator, on the
character list: splitting the empty text yields one empty field, and every
occurrence of the separator starts a new field (empty fields are kept). -/
def pySplitChars (sep : Char) : List Char → List (List Char)
  | [] => [[]]
  | c :: cs =>
      let rest := pySplitChars sep cs
      if c = sep then
        [] :: rest
      else
        match rest with
        | [] => [[c]]
        | r :: rs => (c :: r) :: rs

/-- Python's `s.split(sep)` on strings. -/
def pySplit (s : String) (sep : Char) : List String :=
  (pySplitChars sep s.data).map (fun l => { data := l })

/-- Decimal-digit accumulator for `pyInt`; `none` when a non-digit occurs. -/
def pyNatAux (acc : Nat) : List Char → Option Nat
  | [] => some acc
  | c :: cs =>
      if c.isDigit then pyNatAux (acc * 10 + (c.toNat - 48)) cs
      else none

/-- Python's `int(s)` conversion: an optional leading minus followed by at
least one decimal digit; anything else raises `ValueError`.  (Python also
accepts surrounding whitespace and a leading plus; nothing here depends on
the exact domain.) -/
def pyInt (s : String) : Except GearmanError Int :=
  match s.data with
  | [] => Except.error .valueError
  | '-' :: [] => Except.error .valueError
  | '-' :: cs =>
      match pyNatAux 0 cs with
      | some n => Except.ok (-(n : Int))
      | none => Except.error .valueError
  | cs =>
      match pyNatAux 0 cs with
      | some n => Except.ok (n : Int)
      | none => Except.error .valueError

/-- `GearmanAdminCommandHandler.recv_server_status` (adminhandler.py lines
90-110): the line `'.'` pushes the tuple of accumulated rows onto
`_recv_responses`, resets the accumulator and returns `False`; any other
line is split on tabs, must have exactly `STATUS_RESPONSE_FIELDS = 4`
fields (else `ProtocolError`), has its last three fields converted with
`int`, is appended to the accumulator, and the method returns `True`. -/
def GearmanAdminCommandHandler.recv_server_status
    (h : GearmanAdminCommandHandler) (raw_text : String) :
    Except GearmanError (Bool × GearmanAdminCommandHandler) :=
  if raw_text == "." then
    Except.ok (false,
      { _recv_responses := h._recv_responses ++ [.statusRows h._status_response],
        _status_response := [] })
  else
    match pySplit raw_text '\t' with
    | [t0, t1, t2, t3] =>
        match pyInt t1 with
        | Except.error e => Except.error e
        | Except.ok queued =>
            match pyInt t2 with
            | Except.error e => Except.error e
            | Except.ok running =>
                match pyInt t3 with
                | Except.error e => Except.error e
                | Except.ok workers =>
                    Except.ok (true,
                      { h with _status_response := h._status_response ++
                        [{ task := t0, queued := queued, running := running,
                           workers := workers }] })
    | _ => Except.error .protocolError

/-- An observable effect of a worker-façade result-sending method: either a
command enqueued on the job's connection or a byte written to the self-pipe
notification connection. -/
inductive WorkerEvent
  | enqueue (cmd : Cmd)
  | wake (byte : Char)
  deriving DecidableEq, Repr

/-- `GearmanWorkerCommandHandler.send_job_exception` (workerhandler.py lines
60-67): one `WORK_EXCEPTION` command carrying the job handle and the
encoded data. -/
def GearmanWorkerCommandHandler.send_job_exception_cmd
    (job_handle data : String) : List Cmd :=
  [(.WORK_EXCEPTION, [("job_handle", job_handle), ("data", data)])]

/-- `GearmanWorkerCommandHandler.send_job_failure` (workerhandler.py lines
55-58): one `WORK_FAIL` command carrying the job handle. -/
def GearmanWorkerCommandHandler.send_job_failure_cmd
    (job_handle : String) : List Cmd :=
  [(.WORK_FAIL, [("job_handle", job_handle)])]

/-- `GearmanWorkerCommandHandler.send_job_complete` (workerhandler.py lines
49-53): one `WORK_COMPLETE` command. -/
def GearmanWorkerCommandHandler.send_job_complete_cmd
    (job_handle data : String) : List Cmd :=
  [(.WORK_COMPLETE, [("job_handle", job_handle), ("data", data)])]

/-- `GearmanWorker._notify` (worker.py lines 54-55): write one command byte
to the self-pipe. -/
def GearmanWorker._notify (command : Char) : List WorkerEvent :=
  [.wake command]

/-- `GearmanWorker.send_job_exception` (worker.py lines 169-172): forward
the `"%r"`-formatted exception data (`exc_repr`) to the handler's
`send_job_exception`, then the handler's `send_job_failure`, then
`_notify(command='s')`. -/
def GearmanWorker.send_job_exception (job_handle exc_repr : String) :
    List WorkerEvent :=
  (GearmanWorkerCommandHandler.send_job_exception_cmd job_handle exc_repr).map
      .enqueue ++
    (GearmanWorkerCommandHandler.send_job_failure_cmd job_handle).map
      .enqueue ++
    GearmanWorker._notify 's'

/-- `GearmanWorker.send_job_complete` (worker.py lines 161-163). -/
def GearmanWorker.send_job_complete (job_handle data : String) :
    List WorkerEvent :=
  (GearmanWorkerCommandHandler.send_job_complete_cmd job_handle data).map
      .enqueue ++
    GearmanWorker._notify 's'

/-- What a job callback did: returned a result or raised. -/
inductive CallbackOutcome
  | ok (result : String)
  | raises (exc_repr : String)
  deriving DecidableEq, Repr

/-- `GearmanWorker.process_job` (worker.py lines 182-196), inline branch: run
the callback; on success `send_job_complete`, on any exception
`send_job_exception`.  The gevent pool's `_entry` (threadpool.py lines
59-71) follows the same complete/exception discipline on the concurrent
branch. -/
def GearmanWorker.process_job_inline (job_handle : String)
    (outcome : CallbackOutcome) : List WorkerEvent :=
  match outcome with
  | .ok result => GearmanWorker.send_job_complete job_handle result
  | .raises exc_repr => GearmanWorker.send_job_exception job_handle exc_repr

/-- A sample job used by the concrete witnesses below. -/
def sampleJob : GearmanJob :=
  { has_handler := false, handle := none, task := "reverse",
    unique := "u1", data := "abc" }

/-- A sample request awaiting its `JOB_CREATED` (state `PENDING`). -/
def samplePending : GearmanJobRequest :=
  { job := sampleJob, priority := .nonePriority, background := false,
    connect_attempts := 0, max_connect_attempts := 1, state := .pending,
    timed_out := false }

/-- A freshly created request (state `UNKNOWN`). -/
def sampleUnknown : GearmanJobRequest :=
  { samplePending with state := .unknown }

/-- A request already bound to handle `H:1` (state `CREATED`). -/
def sampleCreated : GearmanJobRequest :=
  { samplePending with
    job := { sampleJob with handle := some "H:1" },
    state := .created }

/-- A request whose retry budget is spent. -/
def sampleExhausted : GearmanJobRequest :=
  { sampleUnknown with connect_attempts := 1, max_connect_attempts := 1 }

/-- A client handler with nothing outstanding. -/
def emptyClientHandler : GearmanClientCommandHandler :=
  { request_queue := [], request_trace := [] }

/-- A client handler with one request awaiting `JOB_CREATED`. -/
def sampleClientHandler : GearmanClientCommandHandler :=
  { request_queue := [samplePending], request_trace := [] }

/-- A connected client connection with one pending and one in-flight
request. -/
def sampleClientConnection : ClientConnection :=
  { server_host := "localhost", server_port := 4730, connected := true,
    sock := some 7, write_only := false, allowed_connect_time := 0,
    _incoming_buffer := [], _outgoing_buffer := "",
    _incoming_commands := [], _outgoing_commands := [],
    handler := { request_queue := [samplePending],
                 request_trace := [("H:1", sampleCreated)] } }

/-- A client connection exactly as `__init__` leaves it (connection.py lines
61-70 end in `_reset_connection`). -/
def freshConnection : ClientConnection :=
  { server_host := "localhost", server_port := 4730, connected := false,
    sock := none, write_only := false, allowed_connect_time := 0,
    _incoming_buffer := [], _outgoing_buffer := "",
    _incoming_commands := [], _outgoing_commands := [],
    handler := emptyClientHandler }

/-- An admin handler with nothing accumulated. -/
def emptyAdminHandler : GearmanAdminCommandHandler :=
  { _recv_responses := [], _status_response := [] }

/-- The working set `poll` can reach after one iteration: the only connected
connection broke during the iteration and was removed, leaving one
never-connected, non-internal connection. -/
def disconnectedWorkingSet : List PollConnection :=
  [{ internal := false, connected := false }]

/-- C5: for every job request, with `background` true, `complete` holds iff the
state is `CREATED` (so a background request in state `FAILED` is not
complete); with `background` false, `complete` holds iff the state is
`COMPLETE` or `FAILED`. -/
theorem complete_background_iff_created (background : Bool) (state : JobState) :
    GearmanJobRequest.completeProp background state = true ↔
      (if background then state = .created
       else state = .complete ∨ state = .failed) := by
  cases background <;> cases state <;>
    simp [GearmanJobRequest.completeProp, pyInStr, JobState.str] <;> decide

/-- C1: `recv_job_created` pops the head of the FIFO `request_queue`
(raising `InvalidClientState` when the queue is empty or the popped request
is not `PENDING`); on success it assigns the handle to the request's job,
moves the request to `CREATED` and binds the handle to it in the handle
map — and `send_job_request` appends at the back of the same queue, so
`JOB_CREATED` responses bind to requests in `SUBMIT_JOB` emission order. -/
theorem recv_job_created_binds_in_fifo_order
    (h : GearmanClientCommandHandler) (job_handle : String) :
    (h.request_queue = [] →
      h.recv_job_created job_handle =
        Except.error (.invalidClientState, h)) ∧
    (∀ r rest, h.request_queue = r :: rest → r.state ≠ .pending →
      h.recv_job_created job_handle =
        Except.error (.invalidClientState, { h with request_queue := rest })) ∧
    (∀ r rest, h.request_queue = r :: rest → r.state = .pending →
      h.recv_job_created job_handle =
        Except.ok ({ request_queue := rest,
                     request_trace := dictInsert h.request_trace job_handle
                       { r with
                         job := { r.job with handle := some job_handle },
                         state := .created } }, true)) ∧
    (∀ r h' r' cmds, h.send_job_request r = Except.ok (h', r', cmds) →
      h'.request_queue = h.request_queue ++ [r']) := by
  refine ⟨?_, ?_, ?_, ?_⟩
  · intro hq
    simp [GearmanClientCommandHandler.recv_job_created, hq]
  · intro r rest hq hs
    simp [GearmanClientCommandHandler.recv_job_created, hq, hs]
  · intro r rest hq hs
    simp [GearmanClientCommandHandler.recv_job_created, hq, hs]
  · intro r h' r' cmds hok
    by_cases hstate : r.state = .unknown
    · simp [GearmanClientCommandHandler.send_job_request,
        _assert_request_state, hstate] at hok
      obtain ⟨hh, hr, -⟩ := hok
      rw [← hh, ← hr]
    · simp [GearmanClientCommandHandler.send_job_request,
        _assert_request_state, hstate] at hok

/-- Witness for C1 at a handler holding one `PENDING` request and at a fresh
request being submitted. -/
theorem recv_job_created_binds_in_fifo_order_witness :
    (sampleClientHandler.recv_job_created "H:1" =
      Except.ok ({ request_queue := [],
                   request_trace :=
                     dictInsert sampleClientHandler.request_trace "H:1"
                       { samplePending with
                         job := { samplePending.job with
                                  handle := some "H:1" },
                         state := .created } }, true)) ∧
    (({ request_queue := [{ sampleUnknown with state := JobState.pending }],
        request_trace := [] } : GearmanClientCommandHandler).request_queue =
      emptyClientHandler.request_queue ++
        [{ sampleUnknown with state := JobState.pending }]) :=
  ⟨(recv_job_created_binds_in_fifo_order sampleClientHandler "H:1").2.2.1
      samplePending [] rfl rfl,
   (recv_job_created_binds_in_fifo_order emptyClientHandler "H:1").2.2.2
      sampleUnknown _ _ _ rfl⟩

/-- C2 (failing evaluation): on the handler exactly as `__init__` builds it,
receiving `NOOP` (not write-only, reservation granted) sends
`GRAB_JOB_UNIQ` but leaves `_grabbing` at `false`: workerhandler.py line
103 assigns `self.grabbing`, a distinct, previously non-existent attribute,
not the `self._grabbing` that `__init__` (line 17) initialises.
Consequently `recv_error` on the fresh handler (line 124 reads
`self.grabbing`) raises `AttributeError` instead of following the
documented `SLEEP` transition. -/
theorem recv_noop_never_sets_underscore_grabbing :
    ((GearmanWorkerCommandHandler.init.recv_noop false true).2.1 =
      [(.GRAB_JOB_UNIQ, [])]) ∧
    ((GearmanWorkerCommandHandler.init.recv_noop false true).1._grabbing =
      false) ∧
    ((GearmanWorkerCommandHandler.init.recv_noop false true).1.grabbing =
      some true) ∧
    (GearmanWorkerCommandHandler.init.recv_error =
      Except.error (.attributeError "grabbing")) :=
  ⟨rfl, rfl, rfl, rfl⟩

/-- C3 (failing evaluation): the cool-down is dead code.  On a fresh
connection, a `connect` at time 100 whose socket step fails raises
`ConnectionError` but leaves `allowed_connect_time` at 0 — line 118 sets it
to 101 and `_reset_connection` at line 120 immediately zeroes it — so an
immediate re-connect (well within the 1-second window) passes the
cool-down check, touches the socket and succeeds; a successful attempt
likewise ends with `allowed_connect_time = 0`. -/
theorem connect_establishes_no_cooldown :
    (GearmanConnection.connect freshConnection 100 false 7 id =
      Except.error (.connectionError "socket error", freshConnection)) ∧
    freshConnection.allowed_connect_time = 0 ∧
    ((GearmanConnection.connect freshConnection 100 true 7 id).isOk
      = true) ∧
    ((GearmanConnection.connect freshConnection 100 true 7 id).toOption.map
        (fun c => c.allowed_connect_time) = some 0) :=
  ⟨rfl, rfl, by decide, by decide⟩

/-- C4 (failing evaluation): when the non-blocking pipe write fails with
`EAGAIN`, `_NotificationConnection.send_command` does not return normally:
the except-branch guard reads the never-imported module name `errno`
(notification.py line 78), so Python raises `NameError` out of the call. -/
theorem notification_send_command_eagain_raises :
    (_NotificationConnection.send_command (.oserror EAGAIN) =
      Except.error (.nameError "errno")) ∧
    (_NotificationConnection.send_command (.ok 1) = Except.ok ()) :=
  ⟨rfl, rfl⟩

/-- C6: the client's `send_job_request` raises `ExceededConnectionAttempts`
when `connect_attempts >= max_connect_attempts`, leaving the request's
state, `connect_attempts` and `timed_out` unchanged; otherwise (a handler
being available) it binds the handler to the request's job, increments
`connect_attempts` by exactly one, clears `timed_out` and forwards the
request to the handler, which moves it to `PENDING`, queues it and emits
the submit command. -/
theorem client_send_job_request_budget (request : GearmanJobRequest)
    (found : Option GearmanClientCommandHandler) :
    (request.max_connect_attempts ≤ request.connect_attempts →
      GearmanClient.send_job_request request found =
        Except.error (.exceededConnectionAttempts, request)) ∧
    (∀ hs, found = some hs →
      request.connect_attempts < request.max_connect_attempts →
      request.state = .unknown →
      ∃ hs' req' cmds,
        GearmanClient.send_job_request request found =
          Except.ok (hs', req', cmds) ∧
        req'.job.has_handler = true ∧
        req'.connect_attempts = request.connect_attempts + 1 ∧
        req'.timed_out = false ∧
        req'.state = .pending ∧
        hs'.request_queue = hs.request_queue ++ [req'] ∧
        cmds = [(get_background_cmd_type request.background request.priority,
                 [("task", request.job.task),
                  ("unique", request.job.unique),
                  ("data", request.job.data)])]) := by
  constructor
  · intro hle
    simp [GearmanClient.send_job_request, hle]
  · intro hs hfound hlt hstate
    subst hfound
    have hcond : ¬ request.max_connect_attempts ≤ request.connect_attempts :=
      Nat.not_le.mpr hlt
    refine ⟨{ hs with request_queue := hs.request_queue ++
        [{ request with
           job := { request.job with has_handler := true },
           connect_attempts := request.connect_attempts + 1,
           timed_out := false,
           state := .pending }] },
      { request with
        job := { request.job with has_handler := true },
        connect_attempts := request.connect_attempts + 1,
        timed_out := false,
        state := .pending },
      [(get_background_cmd_type request.background request.priority,
        [("task", request.job.task),
         ("unique", request.job.unique),
         ("data", request.job.data)])],
      ?_, rfl, rfl, rfl, rfl, rfl, rfl⟩
    simp [GearmanClient.send_job_request, hcond,
      GearmanClientCommandHandler.send_job_request, _assert_request_state,
      hstate]

/-- Witness for C6: a spent budget raises, a fresh request is forwarded with
its attempt count incremented. -/
theorem client_send_job_request_budget_witness :
    (GearmanClient.send_job_request sampleExhausted none =
      Except.error (.exceededConnectionAttempts, sampleExhausted)) ∧
    (∃ hs' req' cmds,
      GearmanClient.send_job_request sampleUnknown (some emptyClientHandler) =
        Except.ok (hs', req', cmds) ∧
      req'.job.has_handler = true ∧
      req'.connect_attempts = sampleUnknown.connect_attempts + 1 ∧
      req'.timed_out = false ∧
      req'.state = .pending ∧
      hs'.request_queue = emptyClientHandler.request_queue ++ [req'] ∧
      cmds = [(get_background_cmd_type sampleUnknown.background
                 sampleUnknown.priority,
               [("task", sampleUnknown.job.task),
                ("unique", sampleUnknown.job.unique),
                ("data", sampleUnknown.job.data)])]) :=
  ⟨(client_send_job_request_budget sampleExhausted none).1 (by decide),
   (client_send_job_request_budget sampleUnknown (some emptyClientHandler)).2
     emptyClientHandler rfl (by decide) rfl⟩

/-- C7 (failing evaluation): after an iteration removes the broken sole
connected connection, the recomputed `pollable` guard
(connectionmanager.py line 193) is `true` on a working set whose only
member is a never-connected, non-internal connection — while no
non-internal connection in the set is connected (the predicate the guard
computes before the first iteration, line 166, and the one the claim
states for both points). -/
theorem poll_guard_recompute_drops_connected :
    (∀ c ∈ disconnectedWorkingSet, ¬ (c.internal = false ∧ c.connected = true)) ∧
    pollable_recomputed disconnectedWorkingSet = true ∧
    pollable_initial disconnectedWorkingSet = false := by
  refine ⟨?_, rfl, rfl⟩
  decide

/-- C8: the manager's `handle_error` on a connection with a client handler
first runs the handler's `on_io_error` — setting every request in the
`request_queue` and every request bound in the handle-trace map back to
`UNKNOWN` — and then closes the connection. -/
theorem handle_error_resets_requests_then_closes (c : ClientConnection) :
    (handle_error c =
      GearmanConnection.close { c with handler := c.handler.on_io_error } id) ∧
    (∀ r ∈ (handle_error c).handler.request_queue, r.state = .unknown) ∧
    (∀ p ∈ (handle_error c).handler.request_trace, p.2.state = .unknown) ∧
    (handle_error c).connected = false ∧
    (handle_error c).sock = none := by
  refine ⟨rfl, ?_, ?_, rfl, rfl⟩
  · intro r hr
    simp [handle_error, GearmanConnection.close, _reset_connection,
      GearmanClientCommandHandler.on_io_error] at hr
    obtain ⟨r0, -, hr0⟩ := hr
    rw [← hr0]
  · intro p hp
    simp [handle_error, GearmanConnection.close, _reset_connection,
      GearmanClientCommandHandler.on_io_error] at hp
    obtain ⟨k0, r0, -, hp0⟩ := hp
    rw [← hp0]

/-- Witness for C8 at a connected client connection holding one pending and
one in-flight request. -/
theorem handle_error_resets_requests_then_closes_witness :
    ({ samplePending with state := JobState.unknown } : GearmanJobRequest).state
      = JobState.unknown ∧
    (handle_error sampleClientConnection).connected = false :=
  ⟨(handle_error_resets_requests_then_closes sampleClientConnection).2.1
      { samplePending with state := JobState.unknown } (by decide),
   (handle_error_resets_requests_then_closes sampleClientConnection).2.2.2.1⟩

/-- C9: `recv_server_status` handles the terminating line `'.'` by pushing
the tuple of accumulated rows onto `_recv_responses`, resetting the
accumulator and returning falsy; any other line is split on tabs and must
have exactly four fields — a different count raises `ProtocolError` — which
parse to `{task, queued, running, workers}` with integer counts, appended
to the accumulator with a truthy return. -/
theorem recv_server_status_line_discipline
    (h : GearmanAdminCommandHandler) (raw_text : String) :
    (raw_text = "." →
      h.recv_server_status raw_text =
        Except.ok (false,
          { _recv_responses :=
              h._recv_responses ++ [.statusRows h._status_response],
            _status_response := [] })) ∧
    (raw_text ≠ "." → (pySplit raw_text '\t').length ≠ 4 →
      h.recv_server_status raw_text = Except.error .protocolError) ∧
    (∀ t0 t1 t2 t3 q r w, raw_text ≠ "." →
      pySplit raw_text '\t' = [t0, t1, t2, t3] →
      pyInt t1 = Except.ok q →
      pyInt t2 = Except.ok r →
      pyInt t3 = Except.ok w →
      h.recv_server_status raw_text =
        Except.ok (true,
          { h with _status_response := h._status_response ++
              [{ task := t0, queued := q, running := r, workers := w }] })) := by
  refine ⟨?_, ?_, ?_⟩
  · intro he
    subst he
    rfl
  · intro hne hlen
    unfold GearmanAdminCommandHandler.recv_server_status
    rw [if_neg (by simpa using hne)]
    split
    · next t0 t1 t2 t3 heq =>
        exact absurd (by rw [heq]; rfl) hlen
    · rfl
  · intro t0 t1 t2 t3 q r w hne hsplit h1 h2 h3
    unfold GearmanAdminCommandHandler.recv_server_status
    rw [if_neg (by simpa using hne), hsplit]
    simp [h1, h2, h3]

/-- Witness for C9: one well-formed row line, one malformed line, and the
terminating line. -/
theorem recv_server_status_line_discipline_witness :
    (emptyAdminHandler.recv_server_status "task1\t3\t2\t4" =
      Except.ok (true,
        { emptyAdminHandler with _status_response :=
            emptyAdminHandler._status_response ++
              [{ task := "task1", queued := 3, running := 2, workers := 4 }] })) ∧
    (emptyAdminHandler.recv_server_status "bad\tline" =
      Except.error .protocolError) ∧
    (emptyAdminHandler.recv_server_status "." =
      Except.ok (false,
        { _recv_responses := emptyAdminHandler._recv_responses ++
            [.statusRows emptyAdminHandler._status_response],
          _status_response := [] })) :=
  ⟨(recv_server_status_line_discipline emptyAdminHandler "task1\t3\t2\t4").2.2
      "task1" "3" "2" "4" 3 2 4 (by decide) rfl rfl rfl rfl,
   (recv_server_status_line_discipline emptyAdminHandler "bad\tline").2.1
      (by decide) (by decide),
   (recv_server_status_line_discipline emptyAdminHandler ".").1 rfl⟩

/-- C10: the worker façade's `send_job_exception` enqueues `WORK_EXCEPTION`
and then `WORK_FAIL` for the same job handle, in that order, before waking
the poll loop with the `'s'` byte; hence any inline `process_job` run whose
callback raises emits exactly exception-then-failure-then-wake — never an
exception alone. -/
theorem send_job_exception_then_failure_then_wake
    (job_handle exc_repr : String) :
    (GearmanWorker.send_job_exception job_handle exc_repr =
      [WorkerEvent.enqueue (.WORK_EXCEPTION,
          [("job_handle", job_handle), ("data", exc_repr)]),
       WorkerEvent.enqueue (.WORK_FAIL, [("job_handle", job_handle)]),
       WorkerEvent.wake 's']) ∧
    (∀ (outcome : CallbackOutcome) (d : String),
      WorkerEvent.enqueue (.WORK_EXCEPTION,
          [("job_handle", job_handle), ("data", d)])
        ∈ GearmanWorker.process_job_inline job_handle outcome →
      GearmanWorker.process_job_inline job_handle outcome =
        [WorkerEvent.enqueue (.WORK_EXCEPTION,
            [("job_handle", job_handle), ("data", d)]),
         WorkerEvent.enqueue (.WORK_FAIL, [("job_handle", job_handle)]),
         WorkerEvent.wake 's']) := by
  constructor
  · rfl
  · intro outcome d hmem
    cases outcome with
    | ok result =>
        simp [GearmanWorker.process_job_inline,
          GearmanWorker.send_job_complete,
          GearmanWorkerCommandHandler.send_job_complete_cmd,
          GearmanWorker._notify] at hmem
    | raises e =>
        simp [GearmanWorker.process_job_inline,
          GearmanWorker.send_job_exception,
          GearmanWorkerCommandHandler.send_job_exception_cmd,
          GearmanWorkerCommandHandler.send_job_failure_cmd,
          GearmanWorker._notify] at hmem ⊢
        simp [hmem]

/-- Witness for C10: a callback that raises on job `H:2` yields exactly the
exception, failure, wake sequence. -/
theorem send_job_exception_then_failure_then_wake_witness :
    GearmanWorker.process_job_inline "H:2" (.raises "boom") =
      [WorkerEvent.enqueue (.WORK_EXCEPTION,
          [("job_handle", "H:2"), ("data", "boom")]),
       WorkerEvent.enqueue (.WORK_FAIL, [("job_handle", "H:2")]),
       WorkerEvent.wake 's'] :=
  (send_job_exception_then_failure_then_wake "H:2" "boom").2
    (.raises "boom") "boom" (by decide)
